import Mathlib

/-
  Verification of the QR-code widget core (value resolution, readiness gating,
  render scheduling, options building) as a shallow embedding of the latest
  widget variant in the repository.

  Conventions of the embedding:
  - JS string-ish values are Option String; none models null/undefined and
    the empty string is the only falsy non-null string.
  - JS numbers used by the widget (dimensions, logo margin and size) are
    Option Rat; 0 is the only falsy non-null number that occurs.
  - The record snapshot delivered by the external record data provider is a
    finite map from qualified field name to an optional scalar (none models a
    null-valued field); the external getFieldValue lookup flattens both
    "field absent" and "field null" to none, as the platform API does.
  - External calls issued by the scheduler (renderer create, renderer update,
    script load) are collected in an output list.
-/

namespace QrCode

/-- JS truthiness of an optional string: null, undefined and the empty string
are falsy, every other string is truthy. -/
def strTruthy : Option String → Bool
  | none => false
  | some s => s != ""

/-- JS truthiness of an optional number: null, undefined and 0 are falsy. -/
def numTruthy : Option ℚ → Bool
  | none => false
  | some q => q != 0

/-- Model of the record snapshot owned by the external record data provider:
a mapping from qualified field name to scalar value, where a none value models
a null field. -/
abbrev RecordSnapshot := List (String × Option String)

/-- Model of the external getFieldValue lookup: returns the value stored at
the qualified field, or none when the field is absent or null-valued. -/
def getFieldValue (record : RecordSnapshot) (field : String) : Option String :=
  (List.lookup field record).join

/-- Model of the JS string trim: removes leading and trailing whitespace.
Written by structural recursion over the character list so that it evaluates
inside the kernel. -/
def trimString (s : String) : String :=
  ⟨((s.data.dropWhile Char.isWhitespace).reverse.dropWhile Char.isWhitespace).reverse⟩

/-- Model of the JS string toLowerCase: lowercases every character. Written
by structural recursion over the character list so that it evaluates inside
the kernel. -/
def lowerString (s : String) : String :=
  ⟨s.data.map Char.toLower⟩

/-- Embeds getQualifiedFieldName: the field name, or the empty string when
absent, is trimmed; null when the trimmed name is empty or the object API
name is falsy; otherwise objectApiName, a dot, and the trimmed field name. -/
def getQualifiedFieldName (objectApiName : Option String) (fieldName : Option String) :
    Option String :=
  let field := trimString (fieldName.getD "")
  if field = "" then none
  else if !strTruthy objectApiName then none
  else some ((objectApiName.getD "") ++ "." ++ field)

/-- Options passed to the dots section of the external renderer. -/
structure DotsOptions where
  color : Option String
  type : String
deriving DecidableEq

/-- Options passed to the background section of the external renderer. -/
structure BackgroundOptions where
  color : Option String
deriving DecidableEq

/-- Options passed to a corners section of the external renderer; a none type
models the omitted (undefined) field. -/
structure CornersOptions where
  type : Option String
  color : Option String
deriving DecidableEq

/-- The qr sub-options of the external renderer. -/
structure QrSubOptions where
  errorCorrectionLevel : String
deriving DecidableEq

/-- Image options attached when a logo is configured. -/
structure ImageOptions where
  crossOrigin : String
  margin : ℚ
  imageSize : ℚ
  hideBackgroundDots : Bool
deriving DecidableEq

/-- The options object handed to the external rendering library. -/
structure QrOptions where
  width : Option ℚ
  height : Option ℚ
  data : String
  dotsOptions : DotsOptions
  backgroundOptions : BackgroundOptions
  cornersSquareOptions : CornersOptions
  cornersDotOptions : CornersOptions
  qrOptions : QrSubOptions
  image : Option String
  imageOptions : Option ImageOptions
deriving DecidableEq

/-- The full state of one widget instance: the api configuration surface,
the tracked record snapshot and error, the cached URL parameter value, the
render handle, the readiness flags, and the mount point (presence of the
qrcode container div and its current content). -/
structure QrState where
  recordId : Option String
  objectApiName : Option String
  qrCodeValueFieldApiName : Option String
  valueSource : Option String
  providedValue : Option String
  urlParamName : Option String
  showTitle : Bool
  titleFieldApiName : Option String
  titleStaticValue : Option String
  qrCodeHeight : Option ℚ
  qrCodeWidth : Option ℚ
  qrCodeDotsColor : Option String
  qrCodeDotsType : Option String
  backgroundColor : Option String
  cornersSquareStyle : Option String
  cornersDotStyle : Option String
  logoUrl : Option String
  logoImageSize : Option ℚ
  logoImageMargin : Option ℚ
  noQrValueMessage : Option String
  record : Option RecordSnapshot
  error : Option String
  urlParamValue : Option String
  qrCodeInstance : Option QrOptions
  qrCodeLibLoaded : Bool
  domReady : Bool
  scriptLoadStarted : Bool
  qrDivPresent : Bool
  qrDivContent : Option QrOptions
deriving DecidableEq

/-- Embeds the usesRecordField getter: record-field mode is selected exactly
when recordId, objectApiName and qrCodeValueFieldApiName are all truthy. -/
def usesRecordField (s : QrState) : Bool :=
  strTruthy s.recordId && strTruthy s.objectApiName && strTruthy s.qrCodeValueFieldApiName

/-- Embeds the effectiveUrlParamName getter: the configured parameter name if
truthy, else the literal qrv, then trimmed. -/
def effectiveUrlParamName (s : QrState) : String :=
  trimString
    (match s.urlParamName with
      | some p => if p = "" then "qrv" else p
      | none => "qrv")

/-- Embeds the title getter: null when showTitle is falsy; otherwise, when a
record snapshot is present and a title field is configured, the value at the
qualified title field is preferred if truthy; otherwise the static title or
the literal QR Code. -/
def title (s : QrState) : Option String :=
  if !s.showTitle then none
  else
    let val : Option String :=
      match s.record, strTruthy s.titleFieldApiName with
      | some r, true =>
          match getQualifiedFieldName s.objectApiName s.titleFieldApiName with
          | some q => getFieldValue r q
          | none => none
      | _, _ => none
    if strTruthy val then val
    else if strTruthy s.titleStaticValue then s.titleStaticValue
    else some "QR Code"

/-- Embeds the qrValueResolved getter: record-field mode reads the snapshot
at the qualified value field; otherwise the URL Parameter source reads the
cached URL parameter value; otherwise the provided value, with falsy values
coalesced to null. -/
def qrValueResolved (s : QrState) : Option String :=
  if usesRecordField s then
    match s.record with
    | none => none
    | some r =>
        match getQualifiedFieldName s.objectApiName s.qrCodeValueFieldApiName with
        | some q => getFieldValue r q
        | none => none
  else if s.valueSource == some "URL Parameter" then
    if strTruthy s.urlParamValue then s.urlParamValue else none
  else
    if strTruthy s.providedValue then s.providedValue else none

/-- Embeds the hasQrValue getter: truthiness of the resolved value. -/
def hasQrValue (s : QrState) : Bool :=
  strTruthy (qrValueResolved s)

/-- Embeds the isReadyToRender getter: false unless the DOM is ready and the
script is loaded; in record-field mode additionally requires a record
snapshot. -/
def isReadyToRender (s : QrState) : Bool :=
  if !s.domReady || !s.qrCodeLibLoaded then false
  else if usesRecordField s then s.record.isSome
  else true

/-- Embeds the corner style expression of buildOptions: the literal sentinel
None yields undefined, otherwise a falsy style yields undefined and a truthy
style is lowercased. -/
def cornerStyleType (style : Option String) : Option String :=
  match style with
  | some t => if t = "None" then none else if t = "" then none else some (lowerString t)
  | none => none

/-- Embeds buildOptions: translates the widget configuration and the resolved
data value into the options object of the external rendering library. -/
def buildOptions (s : QrState) (data : String) : QrOptions :=
  let dotsType :=
    lowerString
      (match s.qrCodeDotsType with
        | some t => if t = "" then "Rounded" else t
        | none => "Rounded")
  { width := s.qrCodeWidth
    height := s.qrCodeHeight
    data := data
    dotsOptions := { color := s.qrCodeDotsColor, type := dotsType }
    backgroundOptions := { color := s.backgroundColor }
    cornersSquareOptions :=
      { type := cornerStyleType s.cornersSquareStyle, color := s.qrCodeDotsColor }
    cornersDotOptions :=
      { type := cornerStyleType s.cornersDotStyle, color := s.qrCodeDotsColor }
    qrOptions := { errorCorrectionLevel := "H" }
    image := if strTruthy s.logoUrl then s.logoUrl else none
    imageOptions :=
      if strTruthy s.logoUrl then
        some { crossOrigin := "anonymous"
               margin := if numTruthy s.logoImageMargin then s.logoImageMargin.getD 0 else 5
               imageSize := if numTruthy s.logoImageSize then s.logoImageSize.getD 0 else 1/2
               hideBackgroundDots := true }
      else none }

/-- Calls issued by the widget to its external collaborators. -/
inductive ExtCall where
  | create (o : QrOptions)
  | update (o : QrOptions)
  | loadScriptCall
deriving DecidableEq

/-- Whether a call is a renderer create-or-update call. -/
def isRenderCall : ExtCall → Bool
  | .create _ => true
  | .update _ => true
  | .loadScriptCall => false

/-- Whether a call is a renderer create call. -/
def isCreateCall : ExtCall → Bool
  | .create _ => true
  | _ => false

/-- Embeds tryRenderOrUpdateQr: returns when not ready or the container div
is absent; clears the div and nulls the handle when the resolved value is
falsy and a handle exists; otherwise creates a fresh renderer instance when
no handle exists or updates the existing one. -/
def tryRenderOrUpdateQr (s : QrState) : QrState × List ExtCall :=
  if !isReadyToRender s then (s, [])
  else if !s.qrDivPresent then (s, [])
  else if !strTruthy (qrValueResolved s) then
    match s.qrCodeInstance with
    | some _ => ({ s with qrDivContent := none, qrCodeInstance := none }, [])
    | none => (s, [])
  else
    let o := buildOptions s ((qrValueResolved s).getD "")
    match s.qrCodeInstance with
    | none =>
        ({ s with qrDivContent := some o, qrCodeInstance := some o }, [ExtCall.create o])
    | some _ =>
        ({ s with qrDivContent := some o, qrCodeInstance := some o }, [ExtCall.update o])

/-- The options a render pass would build from the current state and the
current resolved value. -/
def optsOf (s : QrState) : QrOptions :=
  buildOptions s ((qrValueResolved s).getD "")

/-- External events driving the widget: the lifecycle hooks, the reactive
record and page-reference deliveries, and the script load outcome. -/
inductive Event where
  | connected
  | rendered
  | recordData (r : RecordSnapshot)
  | recordError (e : String)
  | pageRef (nav : List (String × String))
  | scriptLoadSuccess
  | scriptLoadFailure
deriving DecidableEq

/-- One event-handler step of the widget, embedding connectedCallback,
renderedCallback, wiredRecord, wiredPageRef, and the two continuations of the
script load promise. -/
def step : Event → QrState → QrState × List ExtCall
  | .connected, s =>
      if s.scriptLoadStarted then (s, [])
      else ({ s with scriptLoadStarted := true }, [ExtCall.loadScriptCall])
  | .rendered, s =>
      if s.domReady then tryRenderOrUpdateQr s
      else tryRenderOrUpdateQr { s with domReady := true }
  | .recordData r, s =>
      tryRenderOrUpdateQr { s with record := some r, error := none }
  | .recordError e, s =>
      ({ s with record := none, error := some e }, [])
  | .pageRef nav, s =>
      if usesRecordField s then (s, [])
      else if !(s.valueSource == some "URL Parameter") then
        ({ s with urlParamValue := none }, [])
      else
        let key := effectiveUrlParamName s
        let raw : Option String := if key = "" then none else List.lookup key nav
        tryRenderOrUpdateQr
          { s with urlParamValue := if strTruthy raw then raw else none }
  | .scriptLoadSuccess, s =>
      tryRenderOrUpdateQr { s with qrCodeLibLoaded := true }
  | .scriptLoadFailure, s => (s, [])

/-- Runs a list of events from a state, concatenating the external calls. -/
def runEvents (es : List Event) (s : QrState) : QrState × List ExtCall :=
  match es with
  | [] => (s, [])
  | e :: rest =>
      let p := step e s
      let q := runEvents rest p.1
      (q.1, p.2 ++ q.2)

/-- The initial state of a widget instance with an empty configuration, as
the class fields initialize, before any event has fired. -/
def baseState : QrState :=
  { recordId := none
    objectApiName := none
    qrCodeValueFieldApiName := none
    valueSource := some "Provided Value"
    providedValue := none
    urlParamName := some "qrv"
    showTitle := false
    titleFieldApiName := none
    titleStaticValue := none
    qrCodeHeight := none
    qrCodeWidth := none
    qrCodeDotsColor := none
    qrCodeDotsType := some "Rounded"
    backgroundColor := none
    cornersSquareStyle := none
    cornersDotStyle := none
    logoUrl := none
    logoImageSize := none
    logoImageMargin := none
    noQrValueMessage := none
    record := none
    error := none
    urlParamValue := none
    qrCodeInstance := none
    qrCodeLibLoaded := false
    domReady := false
    scriptLoadStarted := false
    qrDivPresent := false
    qrDivContent := none }

/-- A ready provided-value-mode state: DOM mounted, script loaded, the
container div present, and a truthy provided value. -/
def readyProvidedState : QrState :=
  { baseState with
    domReady := true
    qrCodeLibLoaded := true
    qrDivPresent := true
    providedValue := some "ABC123" }

/-- A truthy optional number is a some value distinct from 0, so its default
extraction is nonzero. -/
lemma numTruthy_getD_ne_zero {x : Option ℚ} (h : numTruthy x = true) : x.getD 0 ≠ 0 := by
  cases x with
  | none => simp [numTruthy] at h
  | some q => simpa [numTruthy] using h

/-- Claim C7: the field qualifier trims the field name, returns null when the
trimmed name is empty or the object type is absent (falsy), and otherwise
returns the object type, a dot, and the trimmed field name; it is a pure
function of its two arguments. -/
theorem getQualifiedFieldName_spec :
    (∀ objectType fieldName : Option String,
        (trimString (fieldName.getD "") = "" ∨ strTruthy objectType = false) →
        getQualifiedFieldName objectType fieldName = none)
    ∧ (∀ (o : String) (fieldName : Option String),
        strTruthy (some o) = true → trimString (fieldName.getD "") ≠ "" →
        getQualifiedFieldName (some o) fieldName =
          some (o ++ "." ++ trimString (fieldName.getD ""))) := by
  constructor
  · intro obj fn h
    rcases h with h | h
    · simp [getQualifiedFieldName, h]
    · by_cases h2 : trimString (fn.getD "") = "" <;> simp [getQualifiedFieldName, h, h2]
  · intro o fn h1 h2
    simp [getQualifiedFieldName, h1, h2]

/-- Witness for claim C7 at a concrete object type and a field name carrying
surrounding whitespace. -/
theorem getQualifiedFieldName_spec_app :
    getQualifiedFieldName (some "Account") (some " Name ") =
      some ("Account" ++ "." ++ trimString (((some " Name " : Option String)).getD "")) :=
  getQualifiedFieldName_spec.2 "Account" (some " Name ") (by decide) (by decide)

/-- Claim C6: in the built options, the corner-square and corner-dot type
fields are omitted whenever the configured style is absent or the literal
sentinel None; any other non-empty configured style is lowercased. -/
theorem cornerStyle_sentinel :
    (∀ (s : QrState) (v : String),
        (s.cornersSquareStyle = none ∨ s.cornersSquareStyle = some "None") →
        (buildOptions s v).cornersSquareOptions.type = none)
    ∧ (∀ (s : QrState) (v : String) (t : String),
        s.cornersSquareStyle = some t → t ≠ "None" → t ≠ "" →
        (buildOptions s v).cornersSquareOptions.type = some (lowerString t))
    ∧ (∀ (s : QrState) (v : String),
        (s.cornersDotStyle = none ∨ s.cornersDotStyle = some "None") →
        (buildOptions s v).cornersDotOptions.type = none)
    ∧ (∀ (s : QrState) (v : String) (t : String),
        s.cornersDotStyle = some t → t ≠ "None" → t ≠ "" →
        (buildOptions s v).cornersDotOptions.type = some (lowerString t)) := by
  refine ⟨?_, ?_, ?_, ?_⟩
  · intro s v h
    show cornerStyleType s.cornersSquareStyle = none
    rcases h with h | h <;> simp [cornerStyleType, h]
  · intro s v t h h1 h2
    show cornerStyleType s.cornersSquareStyle = some (lowerString t)
    simp [cornerStyleType, h, h1, h2]
  · intro s v h
    show cornerStyleType s.cornersDotStyle = none
    rcases h with h | h <;> simp [cornerStyleType, h]
  · intro s v t h h1 h2
    show cornerStyleType s.cornersDotStyle = some (lowerString t)
    simp [cornerStyleType, h, h1, h2]

/-- Witness for claim C6: a Dot corner-square style is lowercased and an
absent corner-dot style is omitted, at a concrete configuration. -/
theorem cornerStyle_sentinel_app :
    (buildOptions { baseState with cornersSquareStyle := some "Dot" } "v").cornersSquareOptions.type
        = some (lowerString "Dot")
    ∧ (buildOptions { baseState with cornersSquareStyle := some "Dot" } "v").cornersDotOptions.type
        = none :=
  ⟨cornerStyle_sentinel.2.1 { baseState with cornersSquareStyle := some "Dot" } "v" "Dot"
      rfl (by decide) (by decide),
    cornerStyle_sentinel.2.2.1 { baseState with cornersSquareStyle := some "Dot" } "v"
      (Or.inl rfl)⟩

/-- Claim C10: when no logo is configured the image and imageOptions fields
are entirely absent; when a logo is configured, the image options carry a
nonzero margin and a nonzero relative image size, a configured margin of 0
being coalesced to the default 5 and a configured size of 0 to the default
one half. -/
theorem logo_options_spec :
    (∀ (s : QrState) (v : String), strTruthy s.logoUrl = false →
        (buildOptions s v).image = none ∧ (buildOptions s v).imageOptions = none)
    ∧ (∀ (s : QrState) (v : String), strTruthy s.logoUrl = true →
        (buildOptions s v).image = s.logoUrl ∧
        ∃ io : ImageOptions, (buildOptions s v).imageOptions = some io ∧
          io.margin ≠ 0 ∧ io.imageSize ≠ 0 ∧
          (s.logoImageMargin = some 0 → io.margin = 5) ∧
          (s.logoImageSize = some 0 → io.imageSize = 1/2)) := by
  constructor
  · intro s v h
    constructor
    · show (if strTruthy s.logoUrl then s.logoUrl else none) = none
      simp [h]
    · show (if strTruthy s.logoUrl then _ else none) = none
      simp [h]
  · intro s v h
    constructor
    · show (if strTruthy s.logoUrl then s.logoUrl else none) = s.logoUrl
      simp [h]
    · refine ⟨{ crossOrigin := "anonymous"
                margin := if numTruthy s.logoImageMargin then s.logoImageMargin.getD 0 else 5
                imageSize := if numTruthy s.logoImageSize then s.logoImageSize.getD 0 else 1/2
                hideBackgroundDots := true }, ?_, ?_, ?_, ?_, ?_⟩
      · show (if strTruthy s.logoUrl then _ else none) = some _
        simp [h]
      · by_cases hm : numTruthy s.logoImageMargin = true
        · simpa [hm] using numTruthy_getD_ne_zero hm
        · simp at hm
          simp [hm]
      · by_cases hm : numTruthy s.logoImageSize = true
        · simpa [hm] using numTruthy_getD_ne_zero hm
        · simp at hm
          simp [hm]
      · intro hm
        simp [hm, numTruthy]
      · intro hm
        simp [hm, numTruthy]

/-- A configuration with a logo and both numeric logo settings explicitly
set to 0. -/
def logoZeroState : QrState :=
  { baseState with
    logoUrl := some "https://logo.example/x.png"
    logoImageMargin := some 0
    logoImageSize := some 0 }

/-- Witness for claim C10 at a configuration with a logo and both numeric
logo settings explicitly 0. -/
theorem logo_options_spec_app :
    (buildOptions logoZeroState "v").image = some "https://logo.example/x.png"
    ∧ ∃ io : ImageOptions,
        (buildOptions logoZeroState "v").imageOptions = some io
        ∧ io.margin ≠ 0 ∧ io.imageSize ≠ 0 ∧ io.margin = 5 :=
  have h := logo_options_spec.2 logoZeroState "v" (by decide)
  ⟨h.1, h.2.elim fun io hio =>
    ⟨io, hio.1, hio.2.1, hio.2.2.1, hio.2.2.2.1 rfl⟩⟩

/-- Claim C1: exactly one value-source mode determines the resolved value by
fixed precedence: record-field mode reads the snapshot at the qualified value
field (null without a snapshot or without a usable qualified field, and the
lookup is null at absent or null-valued fields); otherwise the URL Parameter
source reads the cached URL parameter value; otherwise the provided value,
null when blank. Inputs belonging only to non-selected modes never change
the resolved value. -/
theorem qrValueResolved_precedence :
    (∀ s : QrState, usesRecordField s = true → s.record = none → qrValueResolved s = none)
    ∧ (∀ (s : QrState) (r : RecordSnapshot), usesRecordField s = true → s.record = some r →
        getQualifiedFieldName s.objectApiName s.qrCodeValueFieldApiName = none →
        qrValueResolved s = none)
    ∧ (∀ (s : QrState) (r : RecordSnapshot) (q : String), usesRecordField s = true →
        s.record = some r →
        getQualifiedFieldName s.objectApiName s.qrCodeValueFieldApiName = some q →
        qrValueResolved s = getFieldValue r q)
    ∧ (∀ s : QrState, usesRecordField s = false → s.valueSource = some "URL Parameter" →
        qrValueResolved s = (if strTruthy s.urlParamValue then s.urlParamValue else none))
    ∧ (∀ s : QrState, usesRecordField s = false → s.valueSource ≠ some "URL Parameter" →
        qrValueResolved s = (if strTruthy s.providedValue then s.providedValue else none))
    ∧ (∀ s t : QrState, usesRecordField s = true → usesRecordField t = true →
        s.objectApiName = t.objectApiName →
        s.qrCodeValueFieldApiName = t.qrCodeValueFieldApiName → s.record = t.record →
        qrValueResolved s = qrValueResolved t)
    ∧ (∀ s t : QrState, usesRecordField s = false → usesRecordField t = false →
        s.valueSource = some "URL Parameter" → t.valueSource = some "URL Parameter" →
        s.urlParamValue = t.urlParamValue → qrValueResolved s = qrValueResolved t)
    ∧ (∀ s t : QrState, usesRecordField s = false → usesRecordField t = false →
        s.valueSource ≠ some "URL Parameter" → t.valueSource ≠ some "URL Parameter" →
        s.providedValue = t.providedValue → qrValueResolved s = qrValueResolved t) := by
  refine ⟨?_, ?_, ?_, ?_, ?_, ?_, ?_, ?_⟩
  · intro s hu hr
    simp [qrValueResolved, hu, hr]
  · intro s r hu hr hq
    simp [qrValueResolved, hu, hr, hq]
  · intro s r q hu hr hq
    simp [qrValueResolved, hu, hr, hq]
  · intro s hu hv
    simp [qrValueResolved, hu, hv]
  · intro s hu hv
    simp [qrValueResolved, hu, beq_eq_false_iff_ne.mpr hv]
  · intro s t hs ht h1 h2 h3
    simp [qrValueResolved, hs, ht, h1, h2, h3]
  · intro s t hs ht h1 h2 h3
    simp [qrValueResolved, hs, ht, h1, h2, h3]
  · intro s t hs ht h1 h2 h3
    simp [qrValueResolved, hs, ht, beq_eq_false_iff_ne.mpr h1, beq_eq_false_iff_ne.mpr h2, h3]

/-- A record-field-mode state with a delivered snapshot, used to instantiate
the precedence theorem. -/
def recModeState : QrState :=
  { baseState with
    recordId := some "001xx0000000001"
    objectApiName := some "Account"
    qrCodeValueFieldApiName := some "Website__c"
    record := some [("Account.Website__c", some "https://acme.example")] }

/-- Witness for claim C1: in record-field mode with a delivered snapshot the
resolved value is the snapshot lookup at the qualified value field, and in
provided-value mode it is the provided value. -/
theorem qrValueResolved_precedence_app :
    qrValueResolved recModeState
      = getFieldValue [("Account.Website__c", some "https://acme.example")] "Account.Website__c"
    ∧ qrValueResolved { baseState with providedValue := some "ABC123" }
      = (if strTruthy (some "ABC123") then some "ABC123" else none) :=
  ⟨qrValueResolved_precedence.2.2.1 recModeState
      [("Account.Website__c", some "https://acme.example")] "Account.Website__c"
      (by decide) rfl (by decide),
    qrValueResolved_precedence.2.2.2.2.1 { baseState with providedValue := some "ABC123" }
      (by decide) (by decide)⟩

/-- Claim C5: readiness equals the conjunction of DOM mounted, script loaded
and, in record-field mode, a fetched record; when readiness is false the
evaluate-and-render step is a no-op touching no state; and a renderer call is
issued only when readiness holds and the resolved value is truthy. -/
theorem isReadyToRender_spec :
    (∀ s : QrState,
        isReadyToRender s
          = (s.domReady && s.qrCodeLibLoaded && cond (usesRecordField s) s.record.isSome true))
    ∧ (∀ s : QrState, isReadyToRender s = false → tryRenderOrUpdateQr s = (s, []))
    ∧ (∀ (s : QrState) (c : ExtCall), c ∈ (tryRenderOrUpdateQr s).2 → isRenderCall c = true →
        isReadyToRender s = true ∧ hasQrValue s = true) := by
  refine ⟨?_, ?_, ?_⟩
  · intro s
    cases hd : s.domReady <;> cases hl : s.qrCodeLibLoaded <;> cases hu : usesRecordField s <;>
      simp [isReadyToRender, hd, hl, hu]
  · intro s h
    simp [tryRenderOrUpdateQr, h]
  · intro s c hc _
    by_cases hr : isReadyToRender s = true
    · refine ⟨hr, ?_⟩
      by_cases hd : s.qrDivPresent = true
      · by_cases hv : strTruthy (qrValueResolved s) = true
        · exact hv
        · simp only [Bool.not_eq_true] at hv
          cases hi : s.qrCodeInstance <;>
            simp [tryRenderOrUpdateQr, hr, hd, hv, hi] at hc
      · simp only [Bool.not_eq_true] at hd
        simp [tryRenderOrUpdateQr, hr, hd] at hc
    · simp only [Bool.not_eq_true] at hr
      simp [tryRenderOrUpdateQr, hr] at hc

/-- Witness for claim C5: at a concrete unready state the step is a no-op,
and the create call issued at a concrete ready provided-value state entails
readiness and a truthy value there. -/
theorem isReadyToRender_spec_app :
    tryRenderOrUpdateQr baseState = (baseState, [])
    ∧ (isReadyToRender readyProvidedState = true ∧ hasQrValue readyProvidedState = true) :=
  ⟨isReadyToRender_spec.2.1 baseState (by decide),
    isReadyToRender_spec.2.2 readyProvidedState
      (ExtCall.create (optsOf readyProvidedState))
      (by
        rw [show (tryRenderOrUpdateQr readyProvidedState).2
              = [ExtCall.create (optsOf readyProvidedState)] from rfl]
        exact List.mem_singleton.mpr rfl)
      (by decide)⟩

/-- A state outside record-field mode (no record id and no value field)
that nonetheless carries a record snapshot with a truthy value at the
qualified title field, next to a configured static title. -/
def titleModeState : QrState :=
  { baseState with
    showTitle := true
    objectApiName := some "Account"
    titleFieldApiName := some "Name"
    titleStaticValue := some "Static Title"
    record := some [("Account.Name", some "Acme Corp")] }

/-- Counterexample to claim C8 as stated: with record-field mode inactive the
claim demands the configured static title, but the title getter keys on the
presence of a record snapshot and a configured title field, not on the mode,
and returns the snapshot value. -/
theorem title_mode_cex :
    usesRecordField titleModeState = false
    ∧ titleModeState.showTitle = true
    ∧ titleModeState.titleStaticValue = some "Static Title"
    ∧ title titleModeState = some "Acme Corp"
    ∧ title titleModeState ≠ some "Static Title" := by
  refine ⟨rfl, rfl, rfl, rfl, ?_⟩
  decide

/-- Claim C8 as amended: null when title display is disabled; otherwise, when
a record snapshot is present, a title field is configured and the snapshot
holds a truthy value at the qualified title field, that value, regardless of
whether record-field mode is selected; otherwise the configured static title,
defaulting to the literal QR Code. -/
theorem title_resolution :
    (∀ s : QrState, s.showTitle = false → title s = none)
    ∧ (∀ (s : QrState) (r : RecordSnapshot) (q : String) (v : String),
        s.showTitle = true → s.record = some r → strTruthy s.titleFieldApiName = true →
        getQualifiedFieldName s.objectApiName s.titleFieldApiName = some q →
        getFieldValue r q = some v → v ≠ "" → title s = some v)
    ∧ (∀ s : QrState, s.showTitle = true → s.record = none →
        title s = (if strTruthy s.titleStaticValue then s.titleStaticValue else some "QR Code"))
    ∧ (∀ s : QrState, s.showTitle = true → strTruthy s.titleFieldApiName = false →
        title s = (if strTruthy s.titleStaticValue then s.titleStaticValue else some "QR Code"))
    ∧ (∀ (s : QrState) (r : RecordSnapshot), s.showTitle = true → s.record = some r →
        getQualifiedFieldName s.objectApiName s.titleFieldApiName = none →
        title s = (if strTruthy s.titleStaticValue then s.titleStaticValue else some "QR Code"))
    ∧ (∀ (s : QrState) (r : RecordSnapshot) (q : String),
        s.showTitle = true → s.record = some r → strTruthy s.titleFieldApiName = true →
        getQualifiedFieldName s.objectApiName s.titleFieldApiName = some q →
        strTruthy (getFieldValue r q) = false →
        title s = (if strTruthy s.titleStaticValue then s.titleStaticValue else some "QR Code")) := by
  have hnone : strTruthy none = false := rfl
  refine ⟨?_, ?_, ?_, ?_, ?_, ?_⟩
  · intro s h
    simp [title, h]
  · intro s r q v h1 h2 h3 h4 h5 h6
    have hv : strTruthy (some v) = true := by simp [strTruthy, h6]
    simp [title, h1, h2, h3, h4, h5, hv]
  · intro s h1 h2
    simp [title, h1, h2, hnone]
  · intro s h1 h2
    cases hr : s.record <;> simp [title, h1, h2, hr, hnone]
  · intro s r h1 h2 h3
    cases ht : strTruthy s.titleFieldApiName <;> simp [title, h1, h2, h3, ht, hnone]
  · intro s r q h1 h2 h3 h4 h5
    simp [title, h1, h2, h3, h4, h5]

/-- Witness for claim C8: title display disabled yields null at the base
state, and at a concrete state with a snapshot and configured title field the
snapshot value wins. -/
theorem title_resolution_app :
    title baseState = none ∧ title titleModeState = some "Acme Corp" :=
  ⟨title_resolution.1 baseState rfl,
    title_resolution.2.1 titleModeState [("Account.Name", some "Acme Corp")]
      "Account.Name" "Acme Corp" rfl rfl rfl (by decide) (by decide) (by decide)⟩

/-- The evaluate-and-render step is a no-op when not ready. -/
lemma tr_not_ready (s : QrState) (h : isReadyToRender s = false) :
    tryRenderOrUpdateQr s = (s, []) := by
  simp [tryRenderOrUpdateQr, h]

/-- The evaluate-and-render step is a no-op when the container div is
absent. -/
lemma tr_no_div (s : QrState) (h : s.qrDivPresent = false) :
    tryRenderOrUpdateQr s = (s, []) := by
  cases hr : isReadyToRender s <;> simp [tryRenderOrUpdateQr, hr, h]

/-- The evaluate-and-render step is a no-op when the resolved value is falsy
and no render handle exists. -/
lemma tr_novalue_none (s : QrState) (hv : strTruthy (qrValueResolved s) = false)
    (hi : s.qrCodeInstance = none) : tryRenderOrUpdateQr s = (s, []) := by
  cases hr : isReadyToRender s <;> cases hd : s.qrDivPresent <;>
    simp [tryRenderOrUpdateQr, hr, hd, hv, hi]

/-- The evaluate-and-render step clears the div and nulls the handle when
ready with a falsy resolved value and an existing handle. -/
lemma tr_clear (s : QrState) (o : QrOptions) (hr : isReadyToRender s = true)
    (hd : s.qrDivPresent = true) (hv : strTruthy (qrValueResolved s) = false)
    (hi : s.qrCodeInstance = some o) :
    tryRenderOrUpdateQr s = ({ s with qrDivContent := none, qrCodeInstance := none }, []) := by
  simp [tryRenderOrUpdateQr, hr, hd, hv, hi]

/-- The evaluate-and-render step creates a fresh renderer instance when ready
with a truthy resolved value and no handle. -/
lemma tr_create (s : QrState) (hr : isReadyToRender s = true) (hd : s.qrDivPresent = true)
    (hv : strTruthy (qrValueResolved s) = true) (hi : s.qrCodeInstance = none) :
    tryRenderOrUpdateQr s
      = ({ s with qrDivContent := some (optsOf s), qrCodeInstance := some (optsOf s) },
          [ExtCall.create (optsOf s)]) := by
  simp [tryRenderOrUpdateQr, hr, hd, hv, hi, optsOf]

/-- The evaluate-and-render step updates the existing renderer instance when
ready with a truthy resolved value and a handle. -/
lemma tr_update (s : QrState) (i : QrOptions) (hr : isReadyToRender s = true)
    (hd : s.qrDivPresent = true) (hv : strTruthy (qrValueResolved s) = true)
    (hi : s.qrCodeInstance = some i) :
    tryRenderOrUpdateQr s
      = ({ s with qrDivContent := some (optsOf s), qrCodeInstance := some (optsOf s) },
          [ExtCall.update (optsOf s)]) := by
  simp [tryRenderOrUpdateQr, hr, hd, hv, hi, optsOf]

/-- Claim C4: when the resolved value is falsy after a render, the step
clears the mount point and nulls the handle; with no handle and a truthy
value it issues a fresh create; with a handle and a truthy value it issues an
update reusing the handle, never a create; and the handle stays null until a
create call is issued. -/
theorem renderHandle_lifecycle :
    (∀ (s : QrState) (o : QrOptions), isReadyToRender s = true → s.qrDivPresent = true →
        hasQrValue s = false → s.qrCodeInstance = some o →
        tryRenderOrUpdateQr s
          = ({ s with qrDivContent := none, qrCodeInstance := none }, []))
    ∧ (∀ s : QrState, isReadyToRender s = true → s.qrDivPresent = true →
        hasQrValue s = true → s.qrCodeInstance = none →
        tryRenderOrUpdateQr s
          = ({ s with qrDivContent := some (optsOf s), qrCodeInstance := some (optsOf s) },
              [ExtCall.create (optsOf s)]))
    ∧ (∀ (s : QrState) (i : QrOptions), isReadyToRender s = true → s.qrDivPresent = true →
        hasQrValue s = true → s.qrCodeInstance = some i →
        tryRenderOrUpdateQr s
          = ({ s with qrDivContent := some (optsOf s), qrCodeInstance := some (optsOf s) },
              [ExtCall.update (optsOf s)]))
    ∧ (∀ s : QrState, s.qrCodeInstance = none →
        ((tryRenderOrUpdateQr s).1.qrCodeInstance = none ∧ (tryRenderOrUpdateQr s).2 = [])
        ∨ ((tryRenderOrUpdateQr s).1.qrCodeInstance = some (optsOf s)
            ∧ (tryRenderOrUpdateQr s).2 = [ExtCall.create (optsOf s)])) := by
  refine ⟨?_, ?_, ?_, ?_⟩
  · intro s o hr hd hv hi
    exact tr_clear s o hr hd hv hi
  · intro s hr hd hv hi
    exact tr_create s hr hd hv hi
  · intro s i hr hd hv hi
    exact tr_update s i hr hd hv hi
  · intro s hi
    cases hr : isReadyToRender s with
    | false => exact Or.inl (by rw [tr_not_ready s hr]; exact ⟨hi, rfl⟩)
    | true =>
      cases hd : s.qrDivPresent with
      | false => exact Or.inl (by rw [tr_no_div s hd]; exact ⟨hi, rfl⟩)
      | true =>
        cases hv : strTruthy (qrValueResolved s) with
        | false => exact Or.inl (by rw [tr_novalue_none s hv hi]; exact ⟨hi, rfl⟩)
        | true => exact Or.inr (by rw [tr_create s hr hd hv hi]; exact ⟨rfl, rfl⟩)

/-- A ready state with a previously rendered artifact but a falsy resolved
value, about to be torn down. -/
def teardownState : QrState :=
  { baseState with
    domReady := true
    qrCodeLibLoaded := true
    qrDivPresent := true
    qrCodeInstance := some (buildOptions baseState "X")
    qrDivContent := some (buildOptions baseState "X") }

/-- Witness for claim C4: a concrete teardown clears the mount point and
nulls the handle, and a concrete ready state with no handle issues a fresh
create call. -/
theorem renderHandle_lifecycle_app :
    tryRenderOrUpdateQr teardownState
      = ({ teardownState with qrDivContent := none, qrCodeInstance := none }, [])
    ∧ tryRenderOrUpdateQr readyProvidedState
      = ({ readyProvidedState with
            qrDivContent := some (optsOf readyProvidedState)
            qrCodeInstance := some (optsOf readyProvidedState) },
          [ExtCall.create (optsOf readyProvidedState)]) :=
  ⟨renderHandle_lifecycle.1 teardownState (buildOptions baseState "X")
      (by decide) (by decide) (by decide) rfl,
    renderHandle_lifecycle.2.1 readyProvidedState (by decide) (by decide) (by decide) rfl⟩

/-- Counterexample to claim C2 as stated: at a ready provided-value state with
no prior handle, two successive invocations of the evaluate-and-render step
with no intervening state change produce two renderer calls, a create and
then an update; the second invocation is not call-free. -/
theorem tryRender_twice_cex :
    (tryRenderOrUpdateQr readyProvidedState).2
        = [ExtCall.create (buildOptions readyProvidedState "ABC123")]
    ∧ (tryRenderOrUpdateQr (tryRenderOrUpdateQr readyProvidedState).1).2
        = [ExtCall.update (buildOptions readyProvidedState "ABC123")]
    ∧ (tryRenderOrUpdateQr (tryRenderOrUpdateQr readyProvidedState).1).2 ≠ [] :=
  ⟨rfl, rfl, by decide⟩

/-- Claim C2 as amended: invoking the evaluate-and-render step twice in
succession with no intervening state change produces at most one create call;
the second invocation leaves the state unchanged and never creates: it either
issues no call at all, or re-issues a single update carrying exactly the
options held by the render handle after the first invocation. -/
theorem tryRender_second_invocation (s : QrState) :
    (tryRenderOrUpdateQr (tryRenderOrUpdateQr s).1).1 = (tryRenderOrUpdateQr s).1
    ∧ ((tryRenderOrUpdateQr (tryRenderOrUpdateQr s).1).2.all
        (fun c => !isCreateCall c)) = true
    ∧ ((tryRenderOrUpdateQr (tryRenderOrUpdateQr s).1).2 = []
        ∨ ∃ o : QrOptions,
            (tryRenderOrUpdateQr (tryRenderOrUpdateQr s).1).2 = [ExtCall.update o]
            ∧ (tryRenderOrUpdateQr s).1.qrCodeInstance = some o) := by
  cases hr : isReadyToRender s with
  | false =>
    rw [tr_not_ready s hr, tr_not_ready s hr]
    exact ⟨rfl, rfl, Or.inl rfl⟩
  | true =>
    cases hd : s.qrDivPresent with
    | false =>
      rw [tr_no_div s hd, tr_no_div s hd]
      exact ⟨rfl, rfl, Or.inl rfl⟩
    | true =>
      cases hv : strTruthy (qrValueResolved s) with
      | false =>
        cases hi : s.qrCodeInstance with
        | none =>
          rw [tr_novalue_none s hv hi, tr_novalue_none s hv hi]
          exact ⟨rfl, rfl, Or.inl rfl⟩
        | some o =>
          rw [tr_clear s o hr hd hv hi]
          rw [tr_novalue_none { s with qrDivContent := none, qrCodeInstance := none } hv rfl]
          exact ⟨rfl, rfl, Or.inl rfl⟩
      | true =>
        cases hi : s.qrCodeInstance with
        | none =>
          rw [tr_create s hr hd hv hi]
          rw [tr_update
            { s with qrDivContent := some (optsOf s), qrCodeInstance := some (optsOf s) }
            (optsOf s) hr hd hv rfl]
          exact ⟨rfl, rfl, Or.inr ⟨optsOf s, rfl, rfl⟩⟩
        | some i =>
          rw [tr_update s i hr hd hv hi]
          rw [tr_update
            { s with qrDivContent := some (optsOf s), qrCodeInstance := some (optsOf s) }
            (optsOf s) hr hd hv rfl]
          exact ⟨rfl, rfl, Or.inr ⟨optsOf s, rfl, rfl⟩⟩

/-- A ready record-field-mode state before any record delivery: DOM mounted,
script loaded, container div present, no snapshot yet. -/
def readyRecordState : QrState :=
  { baseState with
    recordId := some "001xx0000000001"
    objectApiName := some "Account"
    qrCodeValueFieldApiName := some "Website__c"
    domReady := true
    qrCodeLibLoaded := true
    qrDivPresent := true
    scriptLoadStarted := true }

/-- A delivered snapshot holding a truthy value at the qualified value
field. -/
def acmeSnap : RecordSnapshot := [("Account.Website__c", some "https://acme.example")]

/-- The state after the snapshot delivery rendered the QR code. -/
def renderedRecordState : QrState := (step (Event.recordData acmeSnap) readyRecordState).1

/-- The options rendered from the delivered snapshot value. -/
def acmeOpts : QrOptions := buildOptions readyRecordState "https://acme.example"

/-- Counterexample to claim C3 as stated: after a successful render in
record-field mode, a record-fetch error issues no call but also leaves the
previously rendered artifact and the render handle fully in place, contrary
to the claimed clearing. -/
theorem recordError_keeps_artifact_cex :
    (step (Event.recordData acmeSnap) readyRecordState).2 = [ExtCall.create acmeOpts]
    ∧ (step (Event.recordError "fetch failed") renderedRecordState).2 = []
    ∧ (step (Event.recordError "fetch failed") renderedRecordState).1.qrCodeInstance
        = some acmeOpts
    ∧ (step (Event.recordError "fetch failed") renderedRecordState).1.qrDivContent
        = some acmeOpts :=
  ⟨rfl, rfl, rfl, rfl⟩

/-- When ready, with the container div present and a truthy resolved value,
the evaluate-and-render step issues exactly renderer calls and at least
one. -/
lemma tr_renders (s2 : QrState) (hready : isReadyToRender s2 = true)
    (hdiv : s2.qrDivPresent = true) (hval : strTruthy (qrValueResolved s2) = true) :
    ((tryRenderOrUpdateQr s2).2.all isRenderCall) = true
      ∧ (tryRenderOrUpdateQr s2).2 ≠ [] := by
  cases hi : s2.qrCodeInstance with
  | none =>
    rw [tr_create s2 hready hdiv hval hi]
    exact ⟨rfl, by simp⟩
  | some i =>
    rw [tr_update s2 i hready hdiv hval hi]
    exact ⟨rfl, by simp⟩

/-- Claim C3 as amended: on a record-fetch error no render call is issued,
the error is stored and the snapshot cleared while every other part of the
state, including any previously rendered artifact and the render handle, is
left untouched; the state is recoverable: a subsequent successful fetch whose
snapshot holds a truthy value at the qualified value field issues a renderer
call again. -/
theorem recordError_behavior :
    (∀ (s : QrState) (e : String),
        step (Event.recordError e) s = ({ s with record := none, error := some e }, []))
    ∧ (∀ (s : QrState) (r : RecordSnapshot) (q : String) (v : String),
        s.domReady = true → s.qrCodeLibLoaded = true → s.qrDivPresent = true →
        usesRecordField s = true →
        getQualifiedFieldName s.objectApiName s.qrCodeValueFieldApiName = some q →
        getFieldValue r q = some v → v ≠ "" →
        ((step (Event.recordData r) s).2.all isRenderCall) = true
          ∧ (step (Event.recordData r) s).2 ≠ []) := by
  constructor
  · intro s e
    rfl
  · intro s r q v hd hl hdiv hu hq hv hne
    have hu2 : usesRecordField { s with record := some r, error := none } = true := hu
    have hready : isReadyToRender { s with record := some r, error := none } = true := by
      simp [isReadyToRender, hu2, hd, hl]
    have hdiv2 : ({ s with record := some r, error := none } : QrState).qrDivPresent = true := hdiv
    have hval : strTruthy (qrValueResolved { s with record := some r, error := none }) = true := by
      have hres : qrValueResolved { s with record := some r, error := none } = some v := by
        simp [qrValueResolved, hu2, hq, hv]
      simp [hres, strTruthy, hne]
    exact tr_renders { s with record := some r, error := none } hready hdiv2 hval

/-- Witness for claim C3: a concrete successful fetch after an error issues a
renderer call again. -/
theorem recordError_behavior_app :
    ((step (Event.recordData acmeSnap)
        (step (Event.recordError "fetch failed") renderedRecordState).1).2.all
      isRenderCall) = true
    ∧ (step (Event.recordData acmeSnap)
        (step (Event.recordError "fetch failed") renderedRecordState).1).2 ≠ [] :=
  recordError_behavior.2 (step (Event.recordError "fetch failed") renderedRecordState).1
    acmeSnap "Account.Website__c" "https://acme.example"
    rfl rfl rfl (by decide) (by decide) (by decide) (by decide)

/-- The evaluate-and-render step is a no-op while the external script is not
loaded. -/
lemma tr_unloaded (s : QrState) (h : s.qrCodeLibLoaded = false) :
    tryRenderOrUpdateQr s = (s, []) :=
  tr_not_ready s (by simp [isReadyToRender, h])

/-- Any single event other than a successful script load keeps the script
unloaded and issues no renderer call. -/
lemma step_unloaded (e : Event) (s : QrState) (he : e ≠ Event.scriptLoadSuccess)
    (h : s.qrCodeLibLoaded = false) :
    (step e s).1.qrCodeLibLoaded = false
      ∧ ((step e s).2.all (fun c => !isRenderCall c)) = true := by
  cases e with
  | connected =>
    cases hs : s.scriptLoadStarted <;> simp [step, hs, h, isRenderCall]
  | rendered =>
    cases hd : s.domReady with
    | false =>
      have h2 : ({ s with domReady := true } : QrState).qrCodeLibLoaded = false := h
      simp [step, hd, tr_unloaded _ h2, h2]
    | true =>
      simp [step, hd, tr_unloaded s h, h]
  | recordData r =>
    have h2 : ({ s with record := some r, error := none } : QrState).qrCodeLibLoaded = false := h
    simp [step, tr_unloaded _ h2, h2]
  | recordError e =>
    simp [step, h]
  | pageRef nav =>
    cases hu : usesRecordField s with
    | true => simp [step, hu, h]
    | false =>
      cases hvs : s.valueSource == some "URL Parameter" with
      | false => simp [step, hu, hvs, h]
      | true =>
        have h2 : ∀ u : Option String,
            ({ s with urlParamValue := u } : QrState).qrCodeLibLoaded = false := fun _ => h
        simp [step, hu, hvs, tr_unloaded _ (h2 _), h2]
  | scriptLoadSuccess => exact absurd rfl he
  | scriptLoadFailure => simp [step, h]

/-- A run containing no successful script load keeps the script unloaded and
issues no renderer call. -/
lemma runEvents_unloaded (es : List Event) (s : QrState) (h : s.qrCodeLibLoaded = false)
    (hn : Event.scriptLoadSuccess ∉ es) :
    (runEvents es s).1.qrCodeLibLoaded = false
      ∧ ((runEvents es s).2.all (fun c => !isRenderCall c)) = true := by
  induction es generalizing s with
  | nil => exact ⟨h, rfl⟩
  | cons e rest ih =>
    have he : e ≠ Event.scriptLoadSuccess := fun hh => hn (hh ▸ List.mem_cons_self e rest)
    have hrest : Event.scriptLoadSuccess ∉ rest := fun hh => hn (List.mem_cons_of_mem e hh)
    have h1 := step_unloaded e s he h
    have h2 := ih (step e s).1 h1.1 hrest
    refine ⟨?_, ?_⟩
    · simpa [runEvents] using h2.1
    · simp [runEvents, List.all_append, h1.2, h2.2]

/-- Claim C9: the script-load failure handler returns normally with no state
change and no call; once a load has started, a further connected event never
retries the load; and from an unloaded state, any event sequence without a
successful script load leaves the script-loaded flag false and issues no
renderer create or update call. -/
theorem scriptFailure_permanent :
    (∀ s : QrState, step Event.scriptLoadFailure s = (s, []))
    ∧ (∀ s : QrState, s.scriptLoadStarted = true → step Event.connected s = (s, []))
    ∧ (∀ (es : List Event) (s : QrState), s.qrCodeLibLoaded = false →
        Event.scriptLoadSuccess ∉ es →
        (runEvents es s).1.qrCodeLibLoaded = false
          ∧ ((runEvents es s).2.all (fun c => !isRenderCall c)) = true) :=
  ⟨fun _ => rfl,
    fun s h => by simp [step, h],
    fun es s h hn => runEvents_unloaded es s h hn⟩

/-- An event sequence in which the script load fails and further lifecycle,
record and navigation events arrive. -/
def failRunEvents : List Event :=
  [Event.connected, Event.rendered, Event.scriptLoadFailure,
    Event.recordData [], Event.pageRef [], Event.rendered]

/-- Witness for claim C9 on a concrete run: after a failed script load no
renderer call is ever issued and the loaded flag stays false. -/
theorem scriptFailure_permanent_app :
    (runEvents failRunEvents { baseState with providedValue := some "Z" }).1.qrCodeLibLoaded
        = false
    ∧ ((runEvents failRunEvents { baseState with providedValue := some "Z" }).2.all
        (fun c => !isRenderCall c)) = true :=
  scriptFailure_permanent.2.2 failRunEvents { baseState with providedValue := some "Z" }
    rfl (by decide)

end QrCode
